import Mathlib

/-!
Verification of the FunctionVisualizer computation engine.

This file gives a shallow embedding, over exact rationals, of the core
evaluation routines of the repository (backend/app/core/{utils,algebra,
matrices,geometry,calculus}.py) and proves properties of them.

Modelling conventions used throughout:
* Python floats are modelled as rational numbers `ℚ`; `math.sqrt` and the
  sympy/NumPy square roots are modelled by `Rat.sqrt`, which agrees with the
  mathematical square root on perfect squares of rationals (every concrete
  instance evaluated below only takes square roots of perfect squares, or
  does not depend on the value of the root).
* The `ComputationResult` envelope keeps the fields the claims are about
  (`status`, `operation`, `payload`, `steps`); the presentation-only fields
  (`plot_elements`, `latex`) and the numeric interpolation inside step
  strings are elided, so step strings are fixed texts.
* sympy extended arithmetic (`zoo`, `nan`) is modelled by the `SymNum` type.
* `try/except` blocks that convert any exception into an error envelope are
  modelled by bodies of type `Except String _` together with the wrapper
  `pyEntry`, or by the explicit early `create_error_result` returns that the
  source itself uses.
-/

namespace FV

/-- sympy-style extended (complex) numbers: a finite complex value given by
real and imaginary rational parts, complex infinity `zoo`, or `nan`. -/
inductive SymNum where
  | fin (re im : ℚ)
  | zoo
  | nan
  deriving DecidableEq, Repr

/-- a classified critical point as stored in the `critical_points` payload. -/
structure CritPoint where
  x : ℚ
  y : ℚ
  kind : String
  second_derivative : ℚ
  deriving DecidableEq, Repr

/-- the fragment of parsed limit expressions embedded here: polynomials
(with rational coefficients, ascending order) and the function 1/x. -/
inductive LExpr where
  | poly (p : List ℚ)
  | recip
  deriving DecidableEq, Repr

/-- possible values of a (one-sided or two-sided) limit in the fragment. -/
inductive LimVal where
  | fin (q : ℚ)
  | posInf
  | negInf
  deriving DecidableEq, Repr

/-- values stored in a `ComputationResult.payload`; one constructor per
shape of value the embedded operations actually store. -/
inductive Val where
  | vs (s : String)
  | vq (q : ℚ)
  | vnat (n : ℕ)
  | vb (b : Bool)
  | vmat (m : List (List ℚ))
  | vpts (ps : List (ℚ × ℚ))
  | vnums (xs : List SymNum)
  | vcps (ps : List CritPoint)
  | vexpr (e : LExpr)
  | vlim (v : LimVal)
  | vshape (rows cols : ℕ)
  deriving DecidableEq, Repr

/-- the universal result envelope (core/utils.py, `ComputationResult`),
restricted to the fields the claims concern. -/
structure ComputationResult where
  status : String
  operation : String
  payload : List (String × Val)
  steps : List String
  deriving DecidableEq, Repr

def okS : String := "ok"

def errS : String := "error"

def errKey : String := "error"

def errPrefix : String := "Error: "

/-- core/utils.py `create_error_result`: the standardized error envelope. -/
def create_error_result (operation : String) (message : String) : ComputationResult :=
  { status := errS
    operation := operation
    payload := [(errKey, Val.vs message)]
    steps := [errPrefix ++ message] }

/-- look a key up in a payload (Python dict access, first binding wins). -/
def payloadVal (r : ComputationResult) (k : String) : Option Val :=
  (r.payload.find? (fun kv => kv.1 == k)).map (fun kv => kv.2)

/-- a payload has a given key. -/
def hasKey (r : ComputationResult) (k : String) : Bool :=
  (payloadVal r k).isSome

/-- the envelope discipline claimed for every public entry point: the status
is "ok", or the status is "error" and the payload is exactly the single
binding of "error" to a message with the matching single-line steps entry. -/
def wellFormedEnvelope (r : ComputationResult) : Prop :=
  r.status = okS ∨
    (r.status = errS ∧ ∃ m, r.payload = [(errKey, Val.vs m)] ∧ r.steps = [errPrefix ++ m])

/-- the try/except wrapper every public entry point uses: a raised exception
(`Except.error`) is converted into the standardized error envelope. -/
def pyEntry (operation : String) (body : Except String ComputationResult) : ComputationResult :=
  match body with
  | Except.ok r => r
  | Except.error m => create_error_result operation m

/-- model of `math.sqrt` and of numeric square roots: exact on perfect
squares of rationals (the only case the proofs below depend on). -/
def sqrtQ (q : ℚ) : ℚ := Rat.sqrt q

def tol9 : ℚ := 1 / 10 ^ 9

def tol10 : ℚ := 1 / 10 ^ 10

/-- sympy addition on extended values. -/
def symAdd : SymNum → SymNum → SymNum
  | SymNum.nan, _ => SymNum.nan
  | _, SymNum.nan => SymNum.nan
  | SymNum.zoo, SymNum.zoo => SymNum.nan
  | SymNum.zoo, _ => SymNum.zoo
  | _, SymNum.zoo => SymNum.zoo
  | SymNum.fin a b, SymNum.fin c d => SymNum.fin (a + c) (b + d)

/-- sympy subtraction on extended values. -/
def symSub : SymNum → SymNum → SymNum
  | SymNum.nan, _ => SymNum.nan
  | _, SymNum.nan => SymNum.nan
  | SymNum.zoo, SymNum.zoo => SymNum.nan
  | SymNum.zoo, _ => SymNum.zoo
  | _, SymNum.zoo => SymNum.zoo
  | SymNum.fin a b, SymNum.fin c d => SymNum.fin (a - c) (b - d)

/-- sympy division on extended values: a nonzero finite value divided by
zero is `zoo`, zero divided by zero is `nan`. -/
def symDiv : SymNum → SymNum → SymNum
  | SymNum.nan, _ => SymNum.nan
  | _, SymNum.nan => SymNum.nan
  | SymNum.zoo, SymNum.zoo => SymNum.nan
  | SymNum.zoo, SymNum.fin _ _ => SymNum.zoo
  | SymNum.fin _ _, SymNum.zoo => SymNum.fin 0 0
  | SymNum.fin a b, SymNum.fin c d =>
    if c = 0 ∧ d = 0 then (if a = 0 ∧ b = 0 then SymNum.nan else SymNum.zoo)
    else SymNum.fin ((a * c + b * d) / (c ^ 2 + d ^ 2)) ((b * c - a * d) / (c ^ 2 + d ^ 2))

/-- sympy `x ** 0.5` of a real value: the principal square root, purely
imaginary for negative arguments. -/
def symSqrt (q : ℚ) : SymNum :=
  if 0 ≤ q then SymNum.fin (sqrtQ q) 0 else SymNum.fin 0 (sqrtQ (-q))

def SymNum.isFinite : SymNum → Bool
  | SymNum.fin _ _ => true
  | _ => false

def kRoots : String := "roots"

def kType : String := "type"

def typeRealDistinct : String := "real_distinct"

def typeRealRepeated : String := "real_repeated"

def typeComplex : String := "complex"

def opQuadraticSolve : String := "quadratic_solve"

def stepQuadEquation : String := "Equation: a x^2 + b x + c = 0"

def stepQuadDiscriminant : String := "Discriminant (D) = b^2 - 4ac"

def stepTwoDistinct : String := "D > 0, so there are two distinct real roots."

def stepOneRepeated : String := "D = 0, so there is one repeated real root."

def stepComplexPair : String := "D < 0, so there are two complex conjugate roots."

def stepRoot1 : String := "Root 1"

def stepRoot2 : String := "Root 2"

/-- core/algebra.py `_solve_quadratic`: the cached quadratic worker.  It
computes the discriminant, the two root expressions (dividing by `2*a` in
sympy extended arithmetic, with no check that `a` is nonzero), and branches
on the sign of the discriminant; it returns the payload and the steps (the
latex and plot outputs of the source are elided; the plotting block of the
source swallows its own exceptions and does not affect payload or steps). -/
def _solve_quadratic (a b c : ℚ) : List (String × Val) × List String :=
  let D := b ^ 2 - 4 * a * c
  let x1 := symDiv (symAdd (SymNum.fin (-b) 0) (symSqrt D)) (SymNum.fin (2 * a) 0)
  let x2 := symDiv (symSub (SymNum.fin (-b) 0) (symSqrt D)) (SymNum.fin (2 * a) 0)
  let steps0 := [stepQuadEquation, stepQuadDiscriminant]
  if D > 0 then
    ([(kRoots, Val.vnums [x1, x2]), (kType, Val.vs typeRealDistinct)],
      steps0 ++ [stepTwoDistinct, stepRoot1, stepRoot2])
  else if D = 0 then
    ([(kRoots, Val.vnums [x1]), (kType, Val.vs typeRealRepeated)],
      steps0 ++ [stepOneRepeated, stepRoot1, stepRoot2])
  else
    ([(kRoots, Val.vnums [x1, x2]), (kType, Val.vs typeComplex)],
      steps0 ++ [stepComplexPair, stepRoot1, stepRoot2])

/-- core/algebra.py `QuadraticSolver.solve`: wraps the cached worker into an
"ok" envelope; any exception would be converted by its try/except into an
error envelope (the embedded body is total, so only the ok path is live). -/
def QuadraticSolver_solve (a b c : ℚ) : ComputationResult :=
  let ps := _solve_quadratic a b c
  { status := okS
    operation := opQuadraticSolve
    payload := ps.1
    steps := ps.2 }

def opMatrixInverse : String := "matrix_inverse"

def kMatrix : String := "matrix"

def kDeterminant : String := "determinant"

def kInvertible : String := "invertible"

def kInverse : String := "inverse"

def msgMatrixEmpty : String := "Matrix is empty"

def msgMatrixRagged : String := "Matrix has inconsistent row lengths"

def msgMustBeSquare : String := "Matrix must be square"

def stepDeterminantLine : String := "Determinant"

def stepSingular : String := "Matrix is singular (det = 0), inverse does not exist"

def stepMatrixShape : String := "Matrix shape"

def stepDetNonzero : String := "Determinant is nonzero (invertible)"

def stepGaussJordan : String := "Computing inverse using Gauss-Jordan elimination"

def stepVerifyInverse : String := "Verification: A x A inverse = I"

/-- determinant of a list-of-rows rational matrix by Laplace expansion along
the first row; the first argument is structural-recursion fuel equal to the
matrix dimension.  This is the mathematical determinant that
`numpy.linalg.det` and `sympy.Matrix.det` compute. -/
def detN : ℕ → List (List ℚ) → ℚ
  | 0, _ => 1
  | _ + 1, [] => 1
  | n + 1, r :: rest =>
    (List.range r.length).foldl
      (fun acc j => acc + (-1 : ℚ) ^ j * r.getD j 0 * detN n (rest.map (fun row => row.eraseIdx j)))
      0

/-- determinant of a square list-of-rows rational matrix. -/
def detL (m : List (List ℚ)) : ℚ := detN m.length m

/-- the minor of a matrix: delete row `i` and column `j`. -/
def minorM (m : List (List ℚ)) (i j : ℕ) : List (List ℚ) :=
  (m.eraseIdx i).map (fun row => row.eraseIdx j)

/-- matrix inverse by the adjugate formula; model of `numpy.linalg.inv`
(which the source only calls after establishing the determinant is
nonzero). -/
def invL (m : List (List ℚ)) : List (List ℚ) :=
  let n := m.length
  let d := detL m
  (List.range n).map (fun i =>
    (List.range n).map (fun j => (-1 : ℚ) ^ (i + j) * detL (minorM m j i) / d))

/-- core/matrices.py `_validate_matrix`: empty or ragged input is rejected
with a message, otherwise `none` (the list-of-lists type check of the source
is enforced by the embedding types). -/
def _validate_matrix (matrix : List (List ℚ)) : Option String :=
  if matrix.isEmpty then some msgMatrixEmpty
  else if ((matrix.map (fun row => row.length)).dedup).length > 1 then some msgMatrixRagged
  else none

/-- core/matrices.py `matrix_inverse`: validate, require squareness, compute
the determinant, and return either a "not invertible" ok-envelope (when
`abs det < 1e-10`) or the inverse. -/
def matrix_inverse (matrix : List (List ℚ)) : ComputationResult :=
  match _validate_matrix matrix with
  | some err => create_error_result opMatrixInverse err
  | none =>
    let rows := matrix.length
    let cols := (matrix.headD []).length
    if rows ≠ cols then create_error_result opMatrixInverse msgMustBeSquare
    else
      let det := detL matrix
      if |det| < tol10 then
        { status := okS
          operation := opMatrixInverse
          payload := [(kMatrix, Val.vmat matrix), (kDeterminant, Val.vq det),
            (kInvertible, Val.vb false)]
          steps := [stepDeterminantLine, stepSingular] }
      else
        let inverse := invL matrix
        { status := okS
          operation := opMatrixInverse
          payload := [(kMatrix, Val.vmat matrix), (kInverse, Val.vmat inverse),
            (kDeterminant, Val.vq det), (kInvertible, Val.vb true)]
          steps := [stepMatrixShape, stepDetNonzero, stepGaussJordan, stepVerifyInverse] }

def opMatrixOperation : String := "matrix_operation"

def kResult : String := "result"

def msgSameDimsAdd : String := "Matrices must have same dimensions for addition."

def msgSameDimsSub : String := "Matrices must have same dimensions for subtraction."

def msgMulDims : String := "Column count of A must match row count of B."

def msgUnknownOp : String := "Unknown operation: "

def msgBadMatrixArg : String := "Invalid matrix argument."

def stepMatrixA : String := "Matrix A"

def stepMatrixB : String := "Matrix B"

def stepPerforming : String := "Performing operation:"

def stepOperationResult : String := "Operation result"

def matAdd (A B : List (List ℚ)) : List (List ℚ) :=
  List.zipWith (fun ra rb => List.zipWith (fun x y => x + y) ra rb) A B

def matSub (A B : List (List ℚ)) : List (List ℚ) :=
  List.zipWith (fun ra rb => List.zipWith (fun x y => x - y) ra rb) A B

def matMul (A B : List (List ℚ)) : List (List ℚ) :=
  A.map (fun row =>
    (List.range (B.headD []).length).map (fun j =>
      (List.range B.length).foldl (fun acc k => acc + row.getD k 0 * (B.getD k []).getD j 0) 0))

/-- is a list-of-rows matrix rectangular (the sympy `Matrix` constructor
raises on ragged input)? -/
def isRect (m : List (List ℚ)) : Bool :=
  m.all (fun row => row.length == (m.headD []).length)

def opAdd : String := "add"

def opSubtract : String := "subtract"

def opMultiply : String := "multiply"

/-- body of core/algebra.py `MatrixCalculator.operate`: the sympy matrix
construction and the explicit `raise ValueError` sites are modelled as
`Except.error`; a successful branch builds the ok envelope (numeric
interpolation in messages and steps elided). -/
def MatrixCalculator_operateBody (matrix_a matrix_b : List (List ℚ)) (operation : String) :
    Except String ComputationResult :=
  if ¬ (isRect matrix_a ∧ isRect matrix_b) then Except.error msgBadMatrixArg
  else if operation = opAdd then
    if (matrix_a.length, (matrix_a.headD []).length) ≠ (matrix_b.length, (matrix_b.headD []).length)
    then Except.error msgSameDimsAdd
    else Except.ok
      { status := okS
        operation := "matrix_add"
        payload := [(kResult, Val.vmat (matAdd matrix_a matrix_b))]
        steps := [stepMatrixA, stepMatrixB, stepPerforming, stepOperationResult] }
  else if operation = opSubtract then
    if (matrix_a.length, (matrix_a.headD []).length) ≠ (matrix_b.length, (matrix_b.headD []).length)
    then Except.error msgSameDimsSub
    else Except.ok
      { status := okS
        operation := "matrix_subtract"
        payload := [(kResult, Val.vmat (matSub matrix_a matrix_b))]
        steps := [stepMatrixA, stepMatrixB, stepPerforming, stepOperationResult] }
  else if operation = opMultiply then
    if (matrix_a.headD []).length ≠ matrix_b.length then Except.error msgMulDims
    else Except.ok
      { status := okS
        operation := "matrix_multiply"
        payload := [(kResult, Val.vmat (matMul matrix_a matrix_b))]
        steps := [stepMatrixA, stepMatrixB, stepPerforming, stepOperationResult] }
  else Except.error (msgUnknownOp ++ operation)

/-- core/algebra.py `MatrixCalculator.operate`: the body inside try/except;
any raised error becomes an error envelope. -/
def MatrixCalculator_operate (matrix_a matrix_b : List (List ℚ)) (operation : String) :
    ComputationResult :=
  pyEntry opMatrixOperation (MatrixCalculator_operateBody matrix_a matrix_b operation)

/-- a Python value sitting in a matrix cell, as far as the engine
distinguishes them: `int`, `float`, a string the sympy conversion accepts,
any other value the sympy conversion accepts (`cother`, e.g. sympy
objects), or a value on which the sympy/NumPy conversion raises (`craise`,
e.g. a string sympify rejects or an arbitrary foreign object). -/
inductive Cell where
  | cint (i : ℤ)
  | cfloat (q : ℚ)
  | cstr (s : String)
  | cother
  | craise
  deriving DecidableEq, Repr

/-- Python `str.replace(".", "", 1)`: remove the first dot, if any. -/
def removeFirstDot : List Char → List Char
  | [] => []
  | c :: cs => if c = '.' then cs else c :: removeFirstDot cs

/-- Python `str.isdigit` on ASCII text: nonempty and all digits. -/
def pyIsDigit (cs : List Char) : Bool :=
  !cs.isEmpty && cs.all Char.isDigit

/-- the per-cell test of core/algebra.py `MatrixCalculator.compute_properties`:
`isinstance(x, (int, float))` or a string whose first dot removed leaves
digits only. -/
def cellNumeric : Cell → Bool
  | Cell.cint _ => true
  | Cell.cfloat _ => true
  | Cell.cstr s => pyIsDigit (removeFirstDot s.toList)
  | Cell.cother => false
  | Cell.craise => false

/-- the classifier loop of `MatrixCalculator.compute_properties`: a flag
starts `True` and is cleared (with early break) at the first cell failing
the per-cell test. -/
def matrixIsNumeric (matrix_data : List (List Cell)) : Bool :=
  matrix_data.foldl
    (fun is_numeric row =>
      if is_numeric then row.foldl (fun acc x => if acc then cellNumeric x else acc) true
      else is_numeric)
    true

/-- a scalar as handed to the geometry helpers: a number, a string, or
Python `None` (also used for a missing key looked up with no default). -/
inductive PyVal where
  | num (q : ℚ)
  | str (s : String)
  | nil
  deriving DecidableEq, Repr

def natOfDigits (cs : List Char) : ℕ :=
  cs.foldl (fun a c => 10 * a + (c.toNat - 48)) 0

/-- unsigned part of Python `float(str)` parsing on plain decimals: digits
with an optional single dot, at least one digit (exponents, infinities and
surrounding whitespace are outside the embedded fragment). -/
def pyFloatCore (cs : List Char) : Option ℚ :=
  let ip := cs.takeWhile (fun c => c ≠ '.')
  match cs.dropWhile (fun c => c ≠ '.') with
  | [] => if pyIsDigit ip then some ((natOfDigits ip : ℚ)) else none
  | _ :: fp =>
    if fp.contains '.' then none
    else if ip.all Char.isDigit ∧ fp.all Char.isDigit ∧ (ip ≠ [] ∨ fp ≠ []) then
      some ((natOfDigits ip : ℚ) + (natOfDigits fp : ℚ) / 10 ^ fp.length)
    else none

/-- Python `float(str)` on plain (possibly signed) decimals, `none` when the
conversion raises `ValueError`. -/
def pyFloat? (s : String) : Option ℚ :=
  match s.toList with
  | [] => none
  | c :: cs =>
    if c = '-' then (pyFloatCore cs).map (fun q => -q)
    else if c = '+' then pyFloatCore cs
    else pyFloatCore (c :: cs)

/-- core/geometry.py `_safe_float`: `None` and the empty string give `0.0`,
a failing `float(...)` conversion is swallowed and also gives `0.0`. -/
def _safe_float (val : PyVal) : ℚ :=
  match val with
  | PyVal.nil => 0
  | PyVal.num q => q
  | PyVal.str s => if s = "" then 0 else (pyFloat? s).getD 0

def kStatus : String := "status"

def kPoints : String := "points"

def kDistance : String := "distance"

def opLineCircle : String := "line_circle_intersection"

def sTangent : String := "tangent"

def sSecant : String := "secant"

def sNoIntersection : String := "no_intersection"

def stepLCLine : String := "Line equation"

def stepLCCircle : String := "Circle center and radius"

def stepLCDistance : String := "Perpendicular distance d from center to line"

def stepLCTangent : String := "d = r, line is tangent"

def stepLCSecant : String := "d < r, line is secant (2 points)"

def stepLCNone : String := "d > r, no intersection"

def msgZeroDiv : String := "float division by zero"

/-- body of core/geometry.py `line_circle_intersection` after its
`_safe_float` coercions: the distance comparison with tolerance 1e-9
decides tangent, secant or no intersection.  In the tangent and secant
branches the source divides by `a^2 + b^2` (and by `denom`); when
`a = b = 0` that raises `ZeroDivisionError`, modelled as `Except.error`
(note `denom = 0` exactly when `a^2 + b^2 = 0`, since the square root of a
positive value is positive). -/
def lineCircleBody (a b c h k r : ℚ) : Except String ComputationResult :=
  let numer := |a * h + b * k + c|
  let denom := sqrtQ (a ^ 2 + b ^ 2)
  let dist := if denom ≠ 0 then numer / denom else 0
  let steps0 := [stepLCLine, stepLCCircle, stepLCDistance]
  if |dist - r| < tol9 then
    if a ^ 2 + b ^ 2 = 0 then Except.error msgZeroDiv
    else
      let x0 := (b * (b * h - a * k) - a * c) / (a ^ 2 + b ^ 2)
      let y0 := (a * (-(b * h) + a * k) - b * c) / (a ^ 2 + b ^ 2)
      Except.ok
        { status := okS
          operation := opLineCircle
          payload := [(kStatus, Val.vs sTangent), (kPoints, Val.vpts [(x0, y0)]),
            (kDistance, Val.vq dist)]
          steps := steps0 ++ [stepLCTangent] }
  else if dist < r then
    if a ^ 2 + b ^ 2 = 0 then Except.error msgZeroDiv
    else
      let x0 := (b * (b * h - a * k) - a * c) / (a ^ 2 + b ^ 2)
      let y0 := (a * (-(b * h) + a * k) - b * c) / (a ^ 2 + b ^ 2)
      let d_chord := sqrtQ (r ^ 2 - dist ^ 2)
      let dx := (-b * d_chord) / denom
      let dy := (a * d_chord) / denom
      Except.ok
        { status := okS
          operation := opLineCircle
          payload := [(kStatus, Val.vs sSecant),
            (kPoints, Val.vpts [(x0 + dx, y0 + dy), (x0 - dx, y0 - dy)]),
            (kDistance, Val.vq dist)]
          steps := steps0 ++ [stepLCSecant] }
  else
    Except.ok
      { status := okS
        operation := opLineCircle
        payload := [(kStatus, Val.vs sNoIntersection), (kPoints, Val.vpts []),
          (kDistance, Val.vq dist)]
        steps := steps0 ++ [stepLCNone] }

/-- core/geometry.py `line_circle_intersection`: coerce the six scalars with
`_safe_float`, run the distance-comparison body, and convert a raised
exception into the error envelope via the try/except wrapper. -/
def line_circle_intersection (av bv cv hv kv rv : PyVal) : ComputationResult :=
  pyEntry opLineCircle
    (lineCircleBody (_safe_float av) (_safe_float bv) (_safe_float cv) (_safe_float hv)
      (_safe_float kv) (_safe_float rv))

def opCircleCircle : String := "circle_circle_intersection"

def sDisjointOutside : String := "disjoint_outside"

def sDisjointInside : String := "disjoint_inside"

def sCoincident : String := "coincident"

def sIntersecting : String := "intersecting"

def stepCCCircle1 : String := "Circle 1 center and radius"

def stepCCCircle2 : String := "Circle 2 center and radius"

def stepCCDistance : String := "Distance between centers"

def stepCCSeparate : String := "d > r1 + r2 (Separate circles)"

def stepCCInside : String := "d < abs(r1 - r2) (One inside other)"

def stepCCIdentical : String := "Identical circles"

def stepCCTangent : String := "Circles touch at one point"

def stepCCIntersect : String := "Circles intersect at two points"

/-- core/geometry.py `circle_circle_intersection` after its `_safe_float`
coercions: the center distance is compared against the sum and the absolute
difference of the radii; inside the remaining band, a 1e-9 tolerance on
those same two comparisons separates tangency from proper intersection. -/
def circleCircleCore (h1 k1 r1 h2 k2 r2 : ℚ) : ComputationResult :=
  let d_sq := (h2 - h1) ^ 2 + (k2 - k1) ^ 2
  let d := sqrtQ d_sq
  let steps0 := [stepCCCircle1, stepCCCircle2, stepCCDistance]
  if d > r1 + r2 then
    { status := okS
      operation := opCircleCircle
      payload := [(kStatus, Val.vs sDisjointOutside), (kPoints, Val.vpts []),
        (kDistance, Val.vq d)]
      steps := steps0 ++ [stepCCSeparate] }
  else if d < |r1 - r2| then
    { status := okS
      operation := opCircleCircle
      payload := [(kStatus, Val.vs sDisjointInside), (kPoints, Val.vpts []),
        (kDistance, Val.vq d)]
      steps := steps0 ++ [stepCCInside] }
  else if d = 0 ∧ r1 = r2 then
    { status := okS
      operation := opCircleCircle
      payload := [(kStatus, Val.vs sCoincident), (kPoints, Val.vpts []),
        (kDistance, Val.vq d)]
      steps := steps0 ++ [stepCCIdentical] }
  else
    let a := (r1 ^ 2 - r2 ^ 2 + d ^ 2) / (2 * d)
    let h_val := sqrtQ (max 0 (r1 ^ 2 - a ^ 2))
    let x2 := h1 + a * (h2 - h1) / d
    let y2 := k1 + a * (k2 - k1) / d
    let x3_1 := x2 + h_val * (k2 - k1) / d
    let y3_1 := y2 - h_val * (h2 - h1) / d
    let x3_2 := x2 - h_val * (k2 - k1) / d
    let y3_2 := y2 + h_val * (h2 - h1) / d
    if |d - (r1 + r2)| < tol9 ∨ |d - (abs (r1 - r2))| < tol9 then
      { status := okS
        operation := opCircleCircle
        payload := [(kStatus, Val.vs sTangent), (kPoints, Val.vpts [(x3_1, y3_1)]),
          (kDistance, Val.vq d)]
        steps := steps0 ++ [stepCCTangent] }
    else
      { status := okS
        operation := opCircleCircle
        payload := [(kStatus, Val.vs sIntersecting),
          (kPoints, Val.vpts [(x3_1, y3_1), (x3_2, y3_2)]), (kDistance, Val.vq d)]
        steps := steps0 ++ [stepCCIntersect] }

/-- core/geometry.py `circle_circle_intersection`: coerce the six scalars
with `_safe_float`, then run the distance-comparison core. -/
def circle_circle_intersection (x1v y1v r1v x2v y2v r2v : PyVal) : ComputationResult :=
  circleCircleCore (_safe_float x1v) (_safe_float y1v) (_safe_float r1v) (_safe_float x2v)
    (_safe_float y2v) (_safe_float r2v)

/-- the pure decision function the circle/circle status factors through: it
depends only on the center distance and the two radii, comparing the
distance against their sum and absolute difference (with the 1e-9 tolerance
for tangency). -/
def circleStatusOf (d r1 r2 : ℚ) : String :=
  if d > r1 + r2 then sDisjointOutside
  else if d < |r1 - r2| then sDisjointInside
  else if d = 0 ∧ r1 = r2 then sCoincident
  else if |d - (r1 + r2)| < tol9 ∨ |d - (abs (r1 - r2))| < tol9 then sTangent
  else sIntersecting

/-- number of intersection points returned for each circle/circle status. -/
def circlePointCount (d r1 r2 : ℚ) : ℕ :=
  if d > r1 + r2 then 0
  else if d < |r1 - r2| then 0
  else if d = 0 ∧ r1 = r2 then 0
  else if |d - (r1 + r2)| < tol9 ∨ |d - (abs (r1 - r2))| < tol9 then 1
  else 2

def sDegenerate : String := "Degenerate Conic (Pair of Lines, Point, etc.)"

def sHyperbola : String := "Hyperbola"

def sParabola : String := "Parabola"

def sEllipse : String := "Ellipse"

def sCircle : String := "Circle"

/-- core/geometry.py `_analyze_conic_cached`: classify the conic
`A x^2 + B x y + C y^2 + D x + E y + F = 0` from the determinant of the
3x3 invariant matrix and the discriminant `h^2 - a b` (only the computed
type is modelled; the latex and step strings of the source are elided). -/
def _analyze_conic_cached (A B C D E F : ℚ) : String :=
  let a := A
  let b := C
  let c_const := F
  let h := B / 2
  let g := D / 2
  let f_const := E / 2
  let Delta := detL [[a, h, g], [h, b, f_const], [g, f_const, c_const]]
  let Disc := h ^ 2 - a * b
  if Delta = 0 then sDegenerate
  else if Disc > 0 then sHyperbola
  else if Disc = 0 then sParabola
  else if a = b ∧ h = 0 then sCircle
  else sEllipse

/-- Modelled from the spec: the conic decision tree exactly as the spec
states it (Delta = 0 gives degenerate, otherwise the sign of the
discriminant `h^2 - AC` with `h = B/2` decides, with the ellipse case
specialized to a circle when `A = C` and `B = 0`); written from the spec
wording to be compared against `_analyze_conic_cached`. -/
def conicClassSpec (A B C D E F : ℚ) : String :=
  let h := B / 2
  let Delta := detL [[A, h, D / 2], [h, C, E / 2], [D / 2, E / 2, F]]
  if Delta = 0 then sDegenerate
  else if h ^ 2 - A * C > 0 then sHyperbola
  else if h ^ 2 - A * C = 0 then sParabola
  else if A = C ∧ B = 0 then sCircle
  else sEllipse

def opConicAnalyze : String := "conic_analyze"

def kDiscriminantKey : String := "discriminant"

def stepConicEquation : String := "Equation"

def stepConicDelta : String := "Determinant Delta"

def stepConicDisc : String := "Discriminant h^2 - ab"

def stepConicClass : String := "Classification"

/-- core/geometry.py `ConicAnalyzer.analyze`: coerce the six coefficients
with `_safe_float`, classify, and return an ok envelope (the payload stores
the literal placeholder string "..." for determinant and discriminant,
exactly as the source does). -/
def ConicAnalyzer_analyze (Av Bv Cv Dv Ev Fv : PyVal) : ComputationResult :=
  let A := _safe_float Av
  let B := _safe_float Bv
  let C := _safe_float Cv
  let D := _safe_float Dv
  let E := _safe_float Ev
  let F := _safe_float Fv
  let conic_type := _analyze_conic_cached A B C D E F
  { status := okS
    operation := opConicAnalyze
    payload := [(kType, Val.vs conic_type), (kDeterminant, Val.vs ("...")),
      (kDiscriminantKey, Val.vs ("..."))]
    steps := [stepConicEquation, stepConicDelta, stepConicDisc, stepConicClass] }

/-- evaluate a polynomial given by its ascending coefficient list. -/
def evalPoly (p : List ℚ) (v : ℚ) : ℚ :=
  p.foldr (fun coeff acc => coeff + v * acc) 0

/-- formal derivative of a polynomial in ascending coefficient order
(model of `sympy.diff` on the polynomial fragment). -/
def derivPoly (p : List ℚ) : List ℚ :=
  (p.enum.map (fun ci => ci.2 * (ci.1 : ℚ))).drop 1

/-- drop leading zero coefficients of a reversed coefficient list. -/
def trimRev : List ℚ → List ℚ
  | [] => []
  | coeff :: cs => if coeff = 0 then trimRev cs else coeff :: cs

/-- drop trailing zero coefficients. -/
def trimPoly (p : List ℚ) : List ℚ :=
  (trimRev p.reverse).reverse

/-- a zero of the derivative as sympy reports it: a complex number. -/
structure CZero where
  re : ℚ
  im : ℚ
  deriving DecidableEq, Repr

/-- model of `solveset(f, x, domain=S.Reals)` on the embedded fragment
(derivatives of degree at most one): `none` models a solution set that the
source cannot enumerate (`S.Reals` for the zero polynomial, or a solution
set outside the fragment), `some zeros` an enumerable finite set. -/
def solvesetLin (p : List ℚ) : Option (List CZero) :=
  match trimPoly p with
  | [] => none
  | [_] => some []
  | [c0, c1] => some [{ re := -c0 / c1, im := 0 }]
  | _ => none

def sLocalMin : String := "local minimum"

def sLocalMax : String := "local maximum"

def sInflection : String := "inflection point"

/-- the second-derivative test of core/calculus.py
`FunctionAnalyzer.critical_points`: positive gives a local minimum,
negative a local maximum, exactly zero an inflection point. -/
def classifySecond (second_deriv_val : ℚ) : String :=
  if second_deriv_val > 0 then sLocalMin
  else if second_deriv_val < 0 then sLocalMax
  else sInflection

/-- build the payload record for one accepted critical point. -/
def mkCritPoint (v : ℚ) (f f2 : ℚ → ℚ) : CritPoint :=
  { x := v
    y := f v
    kind := classifySecond (f2 v)
    second_derivative := f2 v }

/-- the per-zero loop of `critical_points`: skip zeros with nonzero
imaginary part, skip real zeros outside the optional domain, and classify
the rest by the sign of the second derivative at the zero. -/
def critFromZeros (zeros : List CZero) (domain : Option (ℚ × ℚ)) (f f2 : ℚ → ℚ) :
    List CritPoint :=
  zeros.filterMap (fun z =>
    if z.im ≠ 0 then none
    else
      match domain with
      | some dom =>
        if z.re < dom.1 ∨ z.re > dom.2 then none
        else some (mkCritPoint z.re f f2)
      | none => some (mkCritPoint z.re f f2))

def opCriticalPoints : String := "critical_points"

def kPointsKey : String := "points"

def stepGivenFunction : String := "Given function"

def stepFirstDerivative : String := "First derivative"

def stepSetDerivZero : String := "Setting the first derivative to 0:"

def stepFoundPoints : String := "Found critical point(s)"

def stepNotEnumerable : String := "Could not enumerate critical points from the solution set."

/-- core/calculus.py `FunctionAnalyzer.critical_points` on the polynomial
fragment: solve the first derivative over the reals; a non-enumerable
solution set yields an ok envelope with an empty points list, otherwise
each real zero inside the optional domain is classified with the second
derivative test. -/
def critical_points (p : List ℚ) (domain : Option (ℚ × ℚ)) : ComputationResult :=
  let dp := derivPoly p
  match solvesetLin dp with
  | none =>
    { status := okS
      operation := opCriticalPoints
      payload := [(kPointsKey, Val.vcps [])]
      steps := [stepGivenFunction, stepFirstDerivative, stepNotEnumerable] }
  | some zeros =>
    let pts := critFromZeros zeros domain (evalPoly p) (evalPoly (derivPoly dp))
    { status := okS
      operation := opCriticalPoints
      payload := [(kPointsKey, Val.vcps pts)]
      steps := [stepGivenFunction, stepFirstDerivative, stepSetDerivZero, stepFoundPoints] }

def opLimit : String := "limit"

def kExpression : String := "expression"

def kPoint : String := "point"

def kDirection : String := "direction"

def dirPlus : String := "+"

def dirMinus : String := "-"

def dirBothSlash : String := "+/-"

def dirBoth : String := "+-"

def msgComputationError : String := "Computation error: "

def msgLimDNE : String := "The limit does not exist since left and right hand limits differ"

def stepLimitExpr : String := "Limit expression"

def stepLimitValue : String := "Evaluated limit"

/-- the direction normalization of core/calculus.py `compute_limit`: the
string is mapped to the sympy direction flag, every string other than
exactly "+" or "-" becoming the two-sided flag "+-". -/
def dirSymOf (direction : String) : String :=
  if direction = dirPlus then dirPlus
  else if direction = dirMinus then dirMinus
  else dirBoth

/-- model of `sympy.limit` on the embedded fragment: polynomials are
continuous (direction-independent value), while 1/x at 0 depends on the
direction and raises for the two-sided flag. -/
def limEval (e : LExpr) (point : ℚ) (dir_sym : String) : Except String LimVal :=
  match e with
  | LExpr.poly p => Except.ok (LimVal.fin (evalPoly p point))
  | LExpr.recip =>
    if point ≠ 0 then Except.ok (LimVal.fin (1 / point))
    else if dir_sym = dirPlus then Except.ok LimVal.posInf
    else if dir_sym = dirMinus then Except.ok LimVal.negInf
    else Except.error msgLimDNE

/-- core/calculus.py `compute_limit`: normalize the direction flag, run the
limit, and either build the ok envelope (echoing the raw `direction`
argument unchanged in the payload) or convert the failure into an error
envelope with the "Computation error: " prefix. -/
def compute_limit (e : LExpr) (point : ℚ) (direction : String) : ComputationResult :=
  let dir_sym := dirSymOf direction
  match limEval e point dir_sym with
  | Except.ok lim_val =>
    { status := okS
      operation := opLimit
      payload := [(kExpression, Val.vexpr e), (kPoint, Val.vq point),
        (kDirection, Val.vs direction), (kResult, Val.vlim lim_val)]
      steps := [stepLimitExpr, stepLimitValue] }
  | Except.error m => create_error_result opLimit (msgComputationError ++ m)

/-- replace the "direction" payload entry of an envelope (helper for
stating that an unrecognized direction flag behaves exactly like the
two-sided default, apart from the echoed direction). -/
def setDir (r : ComputationResult) (d : String) : ComputationResult :=
  { r with payload := r.payload.map (fun kv => if kv.1 == kDirection then (kv.1, Val.vs d) else kv) }

/-- membership of a value in the optional domain, as `critical_points`
tests it (`cx_val < domain[0] or cx_val > domain[1]` rejects). -/
def inDomainOpt : Option (ℚ × ℚ) → ℚ → Prop
  | none, _ => True
  | some dom, v => ¬ (v < dom.1 ∨ v > dom.2)

/-- the number of intersection points in an envelope's "points" payload
entry, when present. -/
def pointsLen (r : ComputationResult) : Option ℕ :=
  match payloadVal r kPoints with
  | some (Val.vpts ps) => some ps.length
  | _ => none

/-- test for the dot character. -/
def dotP : Char → Bool := fun c => c == '.'

/-- test for any character other than the dot. -/
def nonDot : Char → Bool := fun c => c != '.'

/-- Modelled from the spec wording of the classifier (as amended): an
unsigned plain decimal string, that is, at most one decimal point, every
other character a digit, and at least one digit. -/
def isUnsignedPlainDecimal (s : String) : Bool :=
  decide (s.toList.countP dotP ≤ 1) && (s.toList.filter nonDot).all Char.isDigit &&
    !(s.toList.filter nonDot).isEmpty

/-- Modelled from the spec wording of the classifier (as amended): a cell
counts as numeric when it is an integer, a float, or an unsigned plain
decimal string; everything else is symbolic. -/
def cellNumericSpec : Cell → Bool
  | Cell.cint _ => true
  | Cell.cfloat _ => true
  | Cell.cstr s => isUnsignedPlainDecimal s
  | Cell.cother => false
  | Cell.craise => false

/-- `float(x)` of a matrix cell on the numeric path; the classifier
guarantees the cell is an int, a float or an unsigned decimal string
there, so the conversion always succeeds (the remaining cases are never
reached on the numeric path). -/
def cellVal : Cell → ℚ
  | Cell.cint i => (i : ℚ)
  | Cell.cfloat q => q
  | Cell.cstr s => (pyFloat? s).getD 0
  | Cell.cother => 0
  | Cell.craise => 0

/-- does the sympy/NumPy conversion of some cell raise? -/
def cellRaises : Cell → Bool
  | Cell.craise => true
  | _ => false

/-- is a cell matrix rectangular (equal row lengths)? -/
def isRectCell (m : List (List Cell)) : Bool :=
  m.all (fun row => row.length == (m.headD []).length)

/-- Python `round()` on a float: round half to even. -/
def roundHalfEven (q : ℚ) : ℤ :=
  let f := ⌊q⌋
  let r := q - (f : ℚ)
  if r < 1 / 2 then f
  else if r > 1 / 2 then f + 1
  else if f % 2 = 0 then f else f + 1

def opMatrixProperties : String := "matrix_properties"

def msgMatrixError : String := "Matrix Error: "

def msgArrayRagged : String := "setting an array element with a sequence"

def msgShapeUnpack : String := "not enough values to unpack (expected 2, got 1)"

def msgSympyRagged : String := "mismatched dimensions"

def msgSympifyFailed : String := "Sympify of expression failed"

def kShape : String := "shape"

def kIsSquare : String := "is_square"

def kRank : String := "rank"

def stepInputNumeric : String := "Input Matrix (Numeric Mode)"

def stepInputMatrix : String := "Input Matrix"

def stepInverseExists : String := "Inverse exists."

def stepSingularNoInv : String := "Matrix is singular (det=0). No inverse."

def stepRankLine : String := "Rank"

/-- body of core/algebra.py `MatrixCalculator.compute_properties`.  The
classifier selects the path; on the numeric path `np.array` raises on
ragged input and the `rows, cols = A.shape` unpacking raises on the empty
matrix (a 1-D array), then shape, squareness, the determinant (with the
source's two clean-up steps: snapping to 0 below 1e-10, snapping to the
nearest integer within 1e-10) and the inverse gated on `abs(det) > 1e-10`
are computed; on the symbolic path the sympy `Matrix` constructor raises
on ragged input or on a cell it cannot sympify, and shape and squareness
are computed.  Exception messages are fixed representative strings; the
rank and eigenvalue payload entries and the remaining symbolic-path
algebra (exact determinant/inverse over symbolic entries) are elided —
they only add payload entries and steps inside the same ok envelope, and
the eigenvalue section swallows its own failures with an inner
try/except. -/
def MatrixCalculator_compute_propertiesBody (matrix_data : List (List Cell)) :
    Except String ComputationResult :=
  let is_numeric := matrixIsNumeric matrix_data
  if is_numeric then
    if ¬ isRectCell matrix_data then Except.error msgArrayRagged
    else if matrix_data.isEmpty then Except.error msgShapeUnpack
    else
      let A := matrix_data.map (fun row => row.map cellVal)
      let rows := A.length
      let cols := (A.headD []).length
      if rows = cols then
        let det_val0 := detL A
        let det_val1 := if |det_val0| < tol10 then 0 else det_val0
        let det_val :=
          if |det_val1 - (roundHalfEven det_val1 : ℚ)| < tol10 then
            ((roundHalfEven det_val1 : ℚ)) else det_val1
        if |det_val| > tol10 then
          Except.ok
            { status := okS
              operation := opMatrixProperties
              payload := [(kShape, Val.vshape rows cols), (kIsSquare, Val.vb (rows == cols)),
                (kDeterminant, Val.vq det_val), (kInverse, Val.vmat (invL A))]
              steps := [stepInputNumeric, stepDeterminantLine, stepInverseExists, stepRankLine] }
        else
          Except.ok
            { status := okS
              operation := opMatrixProperties
              payload := [(kShape, Val.vshape rows cols), (kIsSquare, Val.vb (rows == cols)),
                (kDeterminant, Val.vq det_val)]
              steps := [stepInputNumeric, stepDeterminantLine, stepSingularNoInv, stepRankLine] }
      else
        Except.ok
          { status := okS
            operation := opMatrixProperties
            payload := [(kShape, Val.vshape rows cols), (kIsSquare, Val.vb (rows == cols))]
            steps := [stepInputNumeric, stepRankLine] }
  else
    if ¬ isRectCell matrix_data then Except.error msgSympyRagged
    else if matrix_data.any (fun row => row.any cellRaises) then Except.error msgSympifyFailed
    else
      let rows := matrix_data.length
      let cols := (matrix_data.headD []).length
      Except.ok
        { status := okS
          operation := opMatrixProperties
          payload := [(kShape, Val.vshape rows cols), (kIsSquare, Val.vb (rows == cols))]
          steps := [stepInputMatrix, stepRankLine] }

/-- core/algebra.py `MatrixCalculator.compute_properties`: the body inside
try/except; any raised exception becomes an error envelope whose message
carries the source's "Matrix Error: " prefix. -/
def MatrixCalculator_compute_properties (matrix_data : List (List Cell)) : ComputationResult :=
  match MatrixCalculator_compute_propertiesBody matrix_data with
  | Except.ok r => r
  | Except.error m => create_error_result opMatrixProperties (msgMatrixError ++ m)

lemma sqrtQ_zero : sqrtQ 0 = 0 := by
  have h := Rat.sqrt_eq (0 : ℚ)
  simp only [mul_zero, abs_zero] at h
  exact h

lemma sqrtQ_sq (b : ℚ) : sqrtQ (b ^ 2) = |b| := by
  rw [sqrtQ, pow_two]
  exact Rat.sqrt_eq b

lemma sqrtQ_pos {q : ℚ} (h : 0 < q) : 0 < sqrtQ q := by
  rw [sqrtQ, Rat.sqrt, Rat.mkRat_eq_div]
  apply div_pos
  · have hnum : 0 < q.num := Rat.num_pos.mpr h
    have h1 : 0 < Int.sqrt q.num := by
      rw [Int.sqrt]
      have h2 : 0 < q.num.toNat := by omega
      exact_mod_cast Nat.sqrt_pos.mpr h2
    exact_mod_cast h1
  · have hden : 0 < q.den := q.pos
    exact_mod_cast Nat.sqrt_pos.mpr hden

lemma symDiv_fin_realden (x y z : ℚ) (hz : z ≠ 0) :
    symDiv (SymNum.fin x y) (SymNum.fin z 0) = SymNum.fin (x / z) (y / z) := by
  simp only [symDiv, hz, false_and, if_false]
  congr 1 <;> field_simp <;> ring

lemma symDiv_fin_zeroden (x y : ℚ) :
    symDiv (SymNum.fin x y) (SymNum.fin 0 0) =
      if x = 0 ∧ y = 0 then SymNum.nan else SymNum.zoo := by
  simp [symDiv]

/-- C3: conic classification of general coefficients follows exactly the
decision tree stated in the spec: a vanishing 3x3 invariant determinant
gives a degenerate conic; otherwise the sign of the discriminant
`h^2 - AC` (with `h = B/2`) selects hyperbola, parabola or ellipse, the
ellipse case being specialized to "Circle" when `A = C` and `B = 0`; in
particular the unit-circle coefficients classify as "Circle". -/
theorem C3_conic_decision_tree :
    (∀ A B C D E F : ℚ, _analyze_conic_cached A B C D E F = conicClassSpec A B C D E F) ∧
    _analyze_conic_cached 1 0 1 0 0 (-1) = sCircle := by
  constructor
  · intro A B C D E F
    have h2 : ((B : ℚ) / 2 = 0) ↔ B = 0 := by
      rw [div_eq_zero_iff]
      norm_num
    simp only [_analyze_conic_cached, conicClassSpec, h2]
  · simp [_analyze_conic_cached, detL, detN, List.range_succ]

/-- C6: for `a` nonzero, the quadratic solver branches on the sign of the
discriminant `D = b^2 - 4ac`: `D > 0` gives two distinct real roots tagged
"real_distinct", `D = 0` one repeated real root tagged "real_repeated",
`D < 0` a complex conjugate pair tagged "complex"; the payload is a pure
function of `(a, b, c)` by construction. -/
theorem C6_quadratic_discriminant_branches (a b c : ℚ) (ha : a ≠ 0) :
    (QuadraticSolver_solve a b c).status = okS ∧
    (b ^ 2 - 4 * a * c > 0 →
      payloadVal (QuadraticSolver_solve a b c) kType = some (Val.vs typeRealDistinct) ∧
      ∃ u v : ℚ, u ≠ v ∧
        payloadVal (QuadraticSolver_solve a b c) kRoots =
          some (Val.vnums [SymNum.fin u 0, SymNum.fin v 0])) ∧
    (b ^ 2 - 4 * a * c = 0 →
      payloadVal (QuadraticSolver_solve a b c) kType = some (Val.vs typeRealRepeated) ∧
      ∃ u : ℚ,
        payloadVal (QuadraticSolver_solve a b c) kRoots = some (Val.vnums [SymNum.fin u 0])) ∧
    (b ^ 2 - 4 * a * c < 0 →
      payloadVal (QuadraticSolver_solve a b c) kType = some (Val.vs typeComplex) ∧
      ∃ u v : ℚ, v ≠ 0 ∧
        payloadVal (QuadraticSolver_solve a b c) kRoots =
          some (Val.vnums [SymNum.fin u v, SymNum.fin u (-v)])) := by
  have h2a : (2 : ℚ) * a ≠ 0 := by
    intro h
    exact ha (by linarith [mul_eq_zero.mp h])
  refine ⟨rfl, ?_, ?_, ?_⟩
  · intro hD
    have hs : 0 < sqrtQ (b ^ 2 - 4 * a * c) := sqrtQ_pos hD
    have hnn : (0 : ℚ) ≤ b ^ 2 - 4 * a * c := le_of_lt hD
    constructor
    · simp [QuadraticSolver_solve, _solve_quadratic, hD, payloadVal, List.find?, kRoots, kType]
    · refine ⟨(-b + sqrtQ (b ^ 2 - 4 * a * c)) / (2 * a),
        (-b - sqrtQ (b ^ 2 - 4 * a * c)) / (2 * a), ?_, ?_⟩
      · intro h
        rw [div_eq_div_iff h2a h2a] at h
        have : sqrtQ (b ^ 2 - 4 * a * c) = 0 := by
          have := mul_right_cancel₀ h2a h
          linarith
        linarith
      · simp [QuadraticSolver_solve, _solve_quadratic, hD, symAdd, symSub, symSqrt, hnn,
          symDiv_fin_realden _ _ _ h2a, payloadVal, List.find?, kRoots, kType]
  · intro hD
    have hnn : (0 : ℚ) ≤ b ^ 2 - 4 * a * c := le_of_eq hD.symm
    constructor
    · simp [QuadraticSolver_solve, _solve_quadratic, hD, payloadVal, List.find?, kRoots, kType]
    · refine ⟨(-b + sqrtQ (b ^ 2 - 4 * a * c)) / (2 * a), ?_⟩
      simp [QuadraticSolver_solve, _solve_quadratic, hD, symAdd, symSub, symSqrt, hnn,
        symDiv_fin_realden _ _ _ h2a, payloadVal, List.find?, kRoots, kType]
  · intro hD
    have hDne : ¬ (b ^ 2 - 4 * a * c > 0) := by linarith
    have hDne0 : ¬ (b ^ 2 - 4 * a * c = 0) := by linarith
    have hneg : ¬ ((0 : ℚ) ≤ b ^ 2 - 4 * a * c) := by linarith
    have hs : 0 < sqrtQ (-(b ^ 2 - 4 * a * c)) := sqrtQ_pos (by linarith)
    constructor
    · simp [QuadraticSolver_solve, _solve_quadratic, hDne, hDne0, payloadVal, List.find?,
        kRoots, kType]
    · refine ⟨(-b) / (2 * a), sqrtQ (-(b ^ 2 - 4 * a * c)) / (2 * a), ?_, ?_⟩
      · exact div_ne_zero (ne_of_gt hs) h2a
      · simp [QuadraticSolver_solve, _solve_quadratic, hDne, hDne0, symAdd, symSub, symSqrt,
          hneg, symDiv_fin_realden _ _ _ h2a, payloadVal, List.find?, kRoots, kType, neg_div]

/-- C6 witness: the three branches at the concrete inputs (1,0,-4), (1,2,1)
and (1,0,1). -/
theorem C6_quadratic_discriminant_branches_witness :
    (payloadVal (QuadraticSolver_solve 1 0 (-4)) kType = some (Val.vs typeRealDistinct) ∧
      ∃ u v : ℚ, u ≠ v ∧
        payloadVal (QuadraticSolver_solve 1 0 (-4)) kRoots =
          some (Val.vnums [SymNum.fin u 0, SymNum.fin v 0])) ∧
    (payloadVal (QuadraticSolver_solve 1 2 1) kType = some (Val.vs typeRealRepeated) ∧
      ∃ u : ℚ,
        payloadVal (QuadraticSolver_solve 1 2 1) kRoots = some (Val.vnums [SymNum.fin u 0])) ∧
    (payloadVal (QuadraticSolver_solve 1 0 1) kType = some (Val.vs typeComplex) ∧
      ∃ u v : ℚ, v ≠ 0 ∧
        payloadVal (QuadraticSolver_solve 1 0 1) kRoots =
          some (Val.vnums [SymNum.fin u v, SymNum.fin u (-v)])) :=
  ⟨(C6_quadratic_discriminant_branches 1 0 (-4) (by norm_num)).2.1 (by norm_num),
    (C6_quadratic_discriminant_branches 1 2 1 (by norm_num)).2.2.1 (by norm_num),
    (C6_quadratic_discriminant_branches 1 0 1 (by norm_num)).2.2.2 (by norm_num)⟩

/-- C10: the quadratic solver does not validate `a` nonzero: for `a = 0`
and `b` nonzero it returns an ok envelope typed "real_distinct" whose two
roots, obtained by dividing by `2a = 0` in sympy extended arithmetic, are
both non-finite (`zoo`/`nan`), rather than a division-by-zero error
envelope. -/
theorem C10_quadratic_a_zero (b c : ℚ) (hb : b ≠ 0) :
    (QuadraticSolver_solve 0 b c).status = okS ∧
    payloadVal (QuadraticSolver_solve 0 b c) kType = some (Val.vs typeRealDistinct) ∧
    ∃ xs : List SymNum,
      payloadVal (QuadraticSolver_solve 0 b c) kRoots = some (Val.vnums xs) ∧
      xs.length = 2 ∧ ∀ r ∈ xs, r.isFinite = false := by
  have hD : (0 : ℚ) < b ^ 2 := by positivity
  have hnn : (0 : ℚ) ≤ b ^ 2 := le_of_lt hD
  have hsq : sqrtQ (b ^ 2) = |b| := sqrtQ_sq b
  refine ⟨rfl, ?_, ?_⟩
  · simp [QuadraticSolver_solve, _solve_quadratic, hD, payloadVal, List.find?, kRoots, kType]
  · refine ⟨[symDiv (symAdd (SymNum.fin (-b) 0) (symSqrt (b ^ 2))) (SymNum.fin 0 0),
      symDiv (symSub (SymNum.fin (-b) 0) (symSqrt (b ^ 2))) (SymNum.fin 0 0)], ?_, by rfl, ?_⟩
    · simp [QuadraticSolver_solve, _solve_quadratic, hD, payloadVal, List.find?, kRoots, kType]
    · intro r hr
      rcases List.mem_pair.mp hr with h | h <;> subst h <;>
        simp only [symAdd, symSub, symSqrt, hnn, if_pos, hsq, symDiv_fin_zeroden] <;>
        split <;> rfl

/-- C10 witness: the concrete degenerate input a = 0, b = 2, c = 3. -/
theorem C10_quadratic_a_zero_witness :
    (QuadraticSolver_solve 0 2 3).status = okS ∧
    payloadVal (QuadraticSolver_solve 0 2 3) kType = some (Val.vs typeRealDistinct) ∧
    ∃ xs : List SymNum,
      payloadVal (QuadraticSolver_solve 0 2 3) kRoots = some (Val.vnums xs) ∧
      xs.length = 2 ∧ ∀ r ∈ xs, r.isFinite = false :=
  C10_quadratic_a_zero 2 3 (by norm_num)

lemma wf_create_error (op m : String) : wellFormedEnvelope (create_error_result op m) :=
  Or.inr ⟨rfl, m, rfl, rfl⟩

/-- C1: every embedded public entry point — the quadratic solver, both
matrix entry points (`matrix_inverse` and `MatrixCalculator`'s
`compute_properties` and `operate`), the geometry intersections and conic
analyzer, and the calculus entry points — returns exactly one
`ComputationResult` whose status is "ok" or "error"; failures (raised
exceptions, modelled as `Except.error`, and the explicit early error
returns) are converted into an envelope whose payload is the single key
"error" with a human-readable message and whose steps are the matching
single line.  No exception propagates: each embedded entry point is a
total function into `ComputationResult`. -/
theorem C1_envelope_discipline :
    (∀ a b c : ℚ, wellFormedEnvelope (QuadraticSolver_solve a b c)) ∧
    (∀ m : List (List ℚ), wellFormedEnvelope (matrix_inverse m)) ∧
    (∀ matrix_data : List (List Cell),
      wellFormedEnvelope (MatrixCalculator_compute_properties matrix_data)) ∧
    (∀ ma mb : List (List ℚ), ∀ op : String,
      wellFormedEnvelope (MatrixCalculator_operate ma mb op)) ∧
    (∀ av bv cv hv kv rv : PyVal,
      wellFormedEnvelope (line_circle_intersection av bv cv hv kv rv)) ∧
    (∀ x1v y1v r1v x2v y2v r2v : PyVal,
      wellFormedEnvelope (circle_circle_intersection x1v y1v r1v x2v y2v r2v)) ∧
    (∀ Av Bv Cv Dv Ev Fv : PyVal,
      wellFormedEnvelope (ConicAnalyzer_analyze Av Bv Cv Dv Ev Fv)) ∧
    (∀ (e : LExpr) (point : ℚ) (direction : String),
      wellFormedEnvelope (compute_limit e point direction)) ∧
    (∀ (p : List ℚ) (domain : Option (ℚ × ℚ)),
      wellFormedEnvelope (critical_points p domain)) := by
  refine ⟨?_, ?_, ?_, ?_, ?_, ?_, ?_, ?_, ?_⟩
  · intro a b c
    exact Or.inl rfl
  · intro m
    unfold matrix_inverse
    cases h : _validate_matrix m with
    | some err => exact wf_create_error _ _
    | none =>
      dsimp only
      split
      · exact wf_create_error _ _
      · split
        · exact Or.inl rfl
        · exact Or.inl rfl
  · intro matrix_data
    unfold MatrixCalculator_compute_properties
    cases hb : MatrixCalculator_compute_propertiesBody matrix_data with
    | ok r =>
      unfold MatrixCalculator_compute_propertiesBody at hb
      dsimp only at hb
      repeat' split at hb
      all_goals simp at hb
      all_goals rw [← hb]
      all_goals exact Or.inl rfl
    | error m => exact wf_create_error _ _
  · intro ma mb op
    unfold MatrixCalculator_operate pyEntry
    cases hb : MatrixCalculator_operateBody ma mb op with
    | ok r =>
      unfold MatrixCalculator_operateBody at hb
      repeat' split at hb
      all_goals simp at hb
      all_goals rw [← hb]
      all_goals exact Or.inl rfl
    | error m => exact wf_create_error _ _
  · intro av bv cv hv kv rv
    unfold line_circle_intersection pyEntry
    cases hb : lineCircleBody (_safe_float av) (_safe_float bv) (_safe_float cv)
        (_safe_float hv) (_safe_float kv) (_safe_float rv) with
    | ok r =>
      unfold lineCircleBody at hb
      dsimp only at hb
      repeat' split at hb
      all_goals simp at hb
      all_goals rw [← hb]
      all_goals exact Or.inl rfl
    | error m => exact wf_create_error _ _
  · intro x1v y1v r1v x2v y2v r2v
    unfold circle_circle_intersection circleCircleCore
    dsimp only
    repeat' split
    all_goals exact Or.inl rfl
  · intro Av Bv Cv Dv Ev Fv
    exact Or.inl rfl
  · intro e point direction
    unfold compute_limit
    dsimp only
    split
    · exact Or.inl rfl
    · exact wf_create_error _ _
  · intro p domain
    unfold critical_points
    dsimp only
    split
    · exact Or.inl rfl
    · exact Or.inl rfl

/-- C2 counterexample: the 1-by-1 matrix with single entry 1e-10 has
`abs det <= 1e-10`, yet `matrix_inverse` reports it invertible and returns
an inverse, contradicting the claim that an inverse is returned exactly
when `abs det > 1e-10`. -/
theorem C2_counterexample :
    |detL [[(1 : ℚ) / 10 ^ 10]]| ≤ 1 / 10 ^ 10 ∧
    payloadVal (matrix_inverse [[(1 : ℚ) / 10 ^ 10]]) kInvertible = some (Val.vb true) ∧
    payloadVal (matrix_inverse [[(1 : ℚ) / 10 ^ 10]]) kInverse =
      some (Val.vmat [[10 ^ 10]]) := by
  have hdet : detL [[(1 : ℚ) / 10 ^ 10]] = 1 / 10 ^ 10 := by
    simp [detL, detN, List.range_succ]
  have h : matrix_inverse [[(1 : ℚ) / 10 ^ 10]] =
      { status := okS
        operation := opMatrixInverse
        payload := [(kMatrix, Val.vmat [[1 / 10 ^ 10]]), (kInverse, Val.vmat [[10 ^ 10]]),
          (kDeterminant, Val.vq (1 / 10 ^ 10)), (kInvertible, Val.vb true)]
        steps := [stepMatrixShape, stepDetNonzero, stepGaussJordan, stepVerifyInverse] } := by
    simp [matrix_inverse, _validate_matrix, detL, detN, invL, minorM, List.range_succ, tol10]
    exact le_abs_self _
  refine ⟨?_, ?_, ?_⟩
  · rw [hdet, abs_of_pos (by norm_num)]
  · rw [h]
    rfl
  · rw [h]
    rfl

/-- C2 (amended): in the numeric path, matrix inversion computes and
returns an inverse exactly when `abs det >= 1e-10` (the source tests
`abs det < 1e-10` strictly); for a valid square matrix with
`abs det < 1e-10` the payload has invertible = false and no inverse, and
with `abs det >= 1e-10` it has invertible = true and the inverse. -/
theorem C2_inverse_gate (m : List (List ℚ)) (hv : _validate_matrix m = none)
    (hsq : ¬ m.length ≠ (m.headD []).length) :
    (tol10 ≤ |detL m| →
      payloadVal (matrix_inverse m) kInvertible = some (Val.vb true) ∧
      payloadVal (matrix_inverse m) kInverse = some (Val.vmat (invL m))) ∧
    (|detL m| < tol10 →
      payloadVal (matrix_inverse m) kInvertible = some (Val.vb false) ∧
      payloadVal (matrix_inverse m) kInverse = none) ∧
    (hasKey (matrix_inverse m) kInverse = true ↔ tol10 ≤ |detL m|) := by
  unfold matrix_inverse
  rw [hv]
  simp only [hsq, if_false]
  by_cases hdet : |detL m| < tol10
  · simp only [hdet, if_true]
    refine ⟨fun hge => absurd hdet (not_lt.mpr hge), fun _ => ?_, ?_⟩
    · constructor <;>
        simp [payloadVal, List.find?, kMatrix, kDeterminant, kInvertible, kInverse]
    · constructor
      · intro hk
        exact absurd hk (by
          simp [hasKey, payloadVal, List.find?, kMatrix, kDeterminant, kInvertible, kInverse])
      · intro hge
        exact absurd hdet (not_lt.mpr hge)
  · simp only [hdet, if_false]
    refine ⟨fun _ => ?_, fun hlt => hlt.elim, ?_⟩
    · constructor <;>
        simp [payloadVal, List.find?, kMatrix, kDeterminant, kInvertible, kInverse]
    · constructor
      · intro _
        exact not_lt.mp hdet
      · intro _
        simp [hasKey, payloadVal, List.find?, kMatrix, kDeterminant, kInvertible, kInverse]

/-- C2 witness: the matrix [[2]] passes validation, is square, has
determinant 2 at least 1e-10, and gets invertible = true with inverse
[[1/2]]. -/
theorem C2_inverse_gate_witness :
    payloadVal (matrix_inverse [[(2 : ℚ)]]) kInvertible = some (Val.vb true) ∧
    payloadVal (matrix_inverse [[(2 : ℚ)]]) kInverse = some (Val.vmat (invL [[2]])) := by
  have hge : tol10 ≤ |detL [[(2 : ℚ)]]| := by
    rw [show detL [[(2 : ℚ)]] = 2 from by simp [detL, detN, List.range_succ]]
    rw [abs_of_pos (by norm_num)]
    norm_num [tol10]
  exact (C2_inverse_gate [[2]] (by simp [_validate_matrix]) (by simp)).1 hge

/-- C4: critical-point classification evaluates the second derivative at
each real zero of the first derivative restricted to the optional domain
(positive gives "local minimum", negative "local maximum", exactly zero an
inflection point), excludes zeros with nonzero imaginary part, and on
f(x) = x^2 over [-2, 2] returns exactly one critical point, at x = 0,
classified "local minimum" (with second derivative 2). -/
theorem C4_critical_point_classification :
    (∀ sd : ℚ,
      (sd > 0 → classifySecond sd = sLocalMin) ∧
      (sd < 0 → classifySecond sd = sLocalMax) ∧
      (sd = 0 → classifySecond sd = sInflection)) ∧
    (∀ (zeros : List CZero) (domain : Option (ℚ × ℚ)) (f f2 : ℚ → ℚ) (pt : CritPoint),
      pt ∈ critFromZeros zeros domain f f2 ↔
        ∃ z ∈ zeros, z.im = 0 ∧ inDomainOpt domain z.re ∧ pt = mkCritPoint z.re f f2) ∧
    payloadVal (critical_points [0, 0, 1] (some (-2, 2))) kPointsKey =
      some (Val.vcps [{ x := 0, y := 0, kind := sLocalMin, second_derivative := 2 }]) := by
  refine ⟨?_, ?_, ?_⟩
  · intro sd
    refine ⟨fun h => ?_, fun h => ?_, fun h => ?_⟩
    · simp [classifySecond, h]
    · simp [classifySecond, h, asymm h]
    · simp [classifySecond, h]
  · intro zeros domain f f2 pt
    simp only [critFromZeros, List.mem_filterMap]
    constructor
    · rintro ⟨z, hz, hmap⟩
      by_cases him : z.im ≠ 0
      · simp [him] at hmap
      · rw [not_not] at him
        cases domain with
        | none =>
          refine ⟨z, hz, him, trivial, ?_⟩
          simp [him] at hmap
          exact hmap.symm
        | some dom =>
          by_cases hd : z.re < dom.1 ∨ z.re > dom.2
          · simp [him, hd] at hmap
          · refine ⟨z, hz, him, hd, ?_⟩
            simp [him, hd] at hmap
            exact hmap.symm
    · rintro ⟨z, hz, him, hdom, rfl⟩
      refine ⟨z, hz, ?_⟩
      cases domain with
      | none => simp [him]
      | some dom =>
        have hd : ¬ (z.re < dom.1 ∨ z.re > dom.2) := hdom
        simp [him, hd]
  · norm_num [critical_points, derivPoly, List.enum, List.enumFrom, solvesetLin, trimPoly,
      trimRev, critFromZeros, mkCritPoint, evalPoly, classifySecond, payloadVal,
      List.find?, kPointsKey, List.filterMap, sLocalMin]

/-- C4 witness: discharge of the conditional parts at concrete inputs: the
sign rules at 2, -3 and 0, and the membership characterization at the
zero list of f(x) = x^2 on [-2, 2]. -/
theorem C4_critical_point_classification_witness :
    classifySecond 2 = sLocalMin ∧
    classifySecond (-3) = sLocalMax ∧
    classifySecond 0 = sInflection ∧
    (mkCritPoint 0 (evalPoly [0, 0, 1]) (evalPoly [2]) ∈
      critFromZeros [{ re := 0, im := 0 }] (some (-2, 2)) (evalPoly [0, 0, 1]) (evalPoly [2])) :=
  ⟨(C4_critical_point_classification.1 2).1 (by norm_num),
    (C4_critical_point_classification.1 (-3)).2.1 (by norm_num),
    (C4_critical_point_classification.1 0).2.2 (by norm_num),
    (C4_critical_point_classification.2.1 [{ re := 0, im := 0 }] (some (-2, 2))
        (evalPoly [0, 0, 1]) (evalPoly [2]) (mkCritPoint 0 (evalPoly [0, 0, 1]) (evalPoly [2]))).mpr
      ⟨{ re := 0, im := 0 }, by norm_num, rfl, by norm_num [inDomainOpt], rfl⟩⟩

/-- C5: circle/circle intersection classifies its outcome purely through the
comparison of the center distance with the sum and the absolute difference
of the radii (with the 1e-9 tolerance deciding tangency inside the closed
band), and the returned point count is a function of the same comparisons:
0 for the disjoint and coincident outcomes, 1 for tangency, 2 for proper
intersection; for centers 5 apart with radii 5 and 3 the status is
"intersecting" with exactly two points. -/
theorem C5_circle_circle_classification :
    (∀ x1 y1 r1 x2 y2 r2 : ℚ,
      payloadVal (circle_circle_intersection (PyVal.num x1) (PyVal.num y1) (PyVal.num r1)
          (PyVal.num x2) (PyVal.num y2) (PyVal.num r2)) kStatus =
        some (Val.vs (circleStatusOf (sqrtQ ((x2 - x1) ^ 2 + (y2 - y1) ^ 2)) r1 r2)) ∧
      pointsLen (circle_circle_intersection (PyVal.num x1) (PyVal.num y1) (PyVal.num r1)
          (PyVal.num x2) (PyVal.num y2) (PyVal.num r2)) =
        some (circlePointCount (sqrtQ ((x2 - x1) ^ 2 + (y2 - y1) ^ 2)) r1 r2)) ∧
    payloadVal (circle_circle_intersection (PyVal.num 0) (PyVal.num 0) (PyVal.num 5)
        (PyVal.num 5) (PyVal.num 0) (PyVal.num 3)) kStatus = some (Val.vs sIntersecting) ∧
    pointsLen (circle_circle_intersection (PyVal.num 0) (PyVal.num 0) (PyVal.num 5)
        (PyVal.num 5) (PyVal.num 0) (PyVal.num 3)) = some 2 := by
  have hg : ∀ x1 y1 r1 x2 y2 r2 : ℚ,
      payloadVal (circle_circle_intersection (PyVal.num x1) (PyVal.num y1) (PyVal.num r1)
          (PyVal.num x2) (PyVal.num y2) (PyVal.num r2)) kStatus =
        some (Val.vs (circleStatusOf (sqrtQ ((x2 - x1) ^ 2 + (y2 - y1) ^ 2)) r1 r2)) ∧
      pointsLen (circle_circle_intersection (PyVal.num x1) (PyVal.num y1) (PyVal.num r1)
          (PyVal.num x2) (PyVal.num y2) (PyVal.num r2)) =
        some (circlePointCount (sqrtQ ((x2 - x1) ^ 2 + (y2 - y1) ^ 2)) r1 r2) := by
    intro x1 y1 r1 x2 y2 r2
    unfold circle_circle_intersection circleCircleCore circleStatusOf circlePointCount
      _safe_float
    dsimp only
    split_ifs <;>
      exact ⟨by simp [payloadVal, List.find?, kStatus, kPoints, kDistance],
        by simp [pointsLen, payloadVal, List.find?, kStatus, kPoints, kDistance]⟩
  have h25 : sqrtQ (((5 : ℚ) - 0) ^ 2 + ((0 : ℚ) - 0) ^ 2) = 5 := by
    rw [show ((5 : ℚ) - 0) ^ 2 + ((0 : ℚ) - 0) ^ 2 = 5 * 5 by norm_num, sqrtQ, Rat.sqrt_eq]
    norm_num
  have hstat : circleStatusOf 5 5 3 = sIntersecting := by
    norm_num [circleStatusOf, tol9]
  have hcount : circlePointCount 5 5 3 = 2 := by
    norm_num [circlePointCount, tol9]
  refine ⟨hg, ?_, ?_⟩
  · have h1 := (hg 0 0 5 5 0 3).1
    rw [h25, hstat] at h1
    exact h1
  · have h2 := (hg 0 0 5 5 0 3).2
    rw [h25, hcount] at h2
    exact h2

lemma noDot_filter_eq_self (cs : List Char) (h : cs.countP dotP = 0) :
    cs.filter nonDot = cs := by
  rw [List.filter_eq_self]
  intro a ha
  have hnd := List.countP_eq_zero.mp h a ha
  simp [dotP, nonDot] at *
  exact hnd

lemma hasDot_all_digit_false (cs : List Char) (h : ¬ cs.countP dotP = 0) :
    cs.all Char.isDigit = false := by
  obtain ⟨a, ha, hdot⟩ : ∃ a ∈ cs, dotP a = true := by
    by_contra hno
    push_neg at hno
    refine h (List.countP_eq_zero.mpr ?_)
    intro a ha
    simp [hno a ha]
  cases hall : cs.all Char.isDigit with
  | false => rfl
  | true =>
    have hd := List.all_eq_true.mp hall a ha
    simp only [dotP, beq_iff_eq] at hdot
    subst hdot
    exact absurd hd (by decide)

lemma removeFirstDot_all (cs : List Char) :
    (removeFirstDot cs).all Char.isDigit =
      (decide (cs.countP dotP ≤ 1) && (cs.filter nonDot).all Char.isDigit) := by
  induction cs with
  | nil => simp [removeFirstDot]
  | cons c cs ih =>
    by_cases hc : c = '.'
    · subst hc
      have h1 : (('.' : Char) :: cs).countP dotP = cs.countP dotP + 1 := by
        simp [List.countP_cons, dotP]
      have h2 : (('.' : Char) :: cs).filter nonDot = cs.filter nonDot := by
        simp [List.filter_cons, nonDot]
      have h3 : removeFirstDot ('.' :: cs) = cs := by simp [removeFirstDot]
      rw [h1, h2, h3]
      by_cases h0 : cs.countP dotP = 0
      · have hf : cs.filter nonDot = cs := noDot_filter_eq_self cs h0
        rw [hf, h0]
        simp
      · have hfa : cs.all Char.isDigit = false := hasDot_all_digit_false cs h0
        have hgt : ¬ (cs.countP dotP + 1 ≤ 1) := by omega
        simp [hfa, hgt]
    · have h1 : (c :: cs).countP dotP = cs.countP dotP := by
        simp [List.countP_cons, dotP, hc]
      have h2 : (c :: cs).filter nonDot = c :: cs.filter nonDot := by
        simp [List.filter_cons, nonDot, hc]
      have h3 : removeFirstDot (c :: cs) = c :: removeFirstDot cs := by
        simp [removeFirstDot, hc]
      rw [h1, h2, h3]
      simp only [List.all_cons, ih]
      cases c.isDigit <;> cases hdec : decide (cs.countP dotP ≤ 1) <;> simp

lemma removeFirstDot_eq_filter (cs : List Char) (h : cs.countP dotP ≤ 1) :
    removeFirstDot cs = cs.filter nonDot := by
  induction cs with
  | nil => rfl
  | cons c cs ih =>
    by_cases hc : c = '.'
    · subst hc
      have h1 : (('.' : Char) :: cs).countP dotP = cs.countP dotP + 1 := by
        simp [List.countP_cons, dotP]
      have h0 : cs.countP dotP = 0 := by omega
      have h2 : (('.' : Char) :: cs).filter nonDot = cs.filter nonDot := by
        simp [List.filter_cons, nonDot]
      have h3 : removeFirstDot ('.' :: cs) = cs := by simp [removeFirstDot]
      rw [h2, h3]
      exact (noDot_filter_eq_self cs h0).symm
    · have h1 : (c :: cs).countP dotP = cs.countP dotP := by
        simp [List.countP_cons, dotP, hc]
      have h2 : (c :: cs).filter nonDot = c :: cs.filter nonDot := by
        simp [List.filter_cons, nonDot, hc]
      have h3 : removeFirstDot (c :: cs) = c :: removeFirstDot cs := by
        simp [removeFirstDot, hc]
      rw [h2, h3, ih (by omega)]

lemma pyIsDigit_removeFirstDot (cs : List Char) :
    pyIsDigit (removeFirstDot cs) =
      (decide (cs.countP dotP ≤ 1) && (cs.filter nonDot).all Char.isDigit &&
        !(cs.filter nonDot).isEmpty) := by
  by_cases h : cs.countP dotP ≤ 1
  · rw [pyIsDigit, removeFirstDot_eq_filter cs h]
    rw [decide_eq_true h, Bool.true_and]
    cases (cs.filter nonDot).all Char.isDigit <;> cases (cs.filter nonDot).isEmpty <;> simp
  · have hall : (removeFirstDot cs).all Char.isDigit = false := by
      rw [removeFirstDot_all]
      simp [h]
    rw [pyIsDigit, hall]
    simp [h]

lemma cellNumeric_eq_spec (x : Cell) : cellNumeric x = cellNumericSpec x := by
  cases x with
  | cstr s =>
    simp only [cellNumeric, cellNumericSpec, isUnsignedPlainDecimal]
    exact pyIsDigit_removeFirstDot s.toList
  | cint i => rfl
  | cfloat q => rfl
  | cother => rfl
  | craise => rfl

lemma foldl_if_and {α : Type} (p : α → Bool) (l : List α) (acc : Bool) :
    l.foldl (fun b x => if b then p x else b) acc = (acc && l.all p) := by
  induction l generalizing acc with
  | nil => simp
  | cons c l ih =>
    simp only [List.foldl_cons, List.all_cons]
    rw [show (if acc then p c else acc) = (acc && p c) from by cases acc <;> simp]
    rw [ih]
    cases acc <;> simp [Bool.and_assoc]

lemma matrixIsNumeric_eq_all (m : List (List Cell)) :
    matrixIsNumeric m = m.all (fun row => row.all cellNumeric) := by
  unfold matrixIsNumeric
  have hrow : ∀ row : List Cell,
      (row.foldl (fun acc x => if acc then cellNumeric x else acc) true) =
        row.all cellNumeric := by
    intro row
    rw [foldl_if_and]
    simp
  simp only [hrow]
  rw [foldl_if_and (fun row => row.all cellNumeric) m true]
  simp

/-- C7 counterexample: the string "-5" parses as a (signed) plain decimal
under Python float conversion, yet the classifier sends the matrix [["-5"]]
down the symbolic path, contradicting the claim that strings parsing as
plain decimals including signed decimals are classified numeric. -/
theorem C7_counterexample :
    pyFloat? ("-5") = some (-5) ∧ matrixIsNumeric [[Cell.cstr ("-5")]] = false := by
  constructor
  · rfl
  · rfl

/-- C7 (amended): the classifier selects the numeric path exactly when
every cell is an integer, a float, or an unsigned plain decimal string
(digits with at most one decimal point and at least one digit, with no
sign); all other inputs, signed decimal strings such as "-5" included, are
classified symbolic, and the classifier is total (no error state). -/
theorem C7_numeric_classifier (m : List (List Cell)) :
    matrixIsNumeric m = m.all (fun row => row.all cellNumericSpec) := by
  rw [matrixIsNumeric_eq_all, funext cellNumeric_eq_spec]

/-- C8 counterexample: passing the non-decimal string "x" as the line
coefficient `a` of `line_circle_intersection` does not produce an error:
the call returns exactly the envelope of the call with `a = 0` (the value
`_safe_float` silently substitutes), with status "ok". -/
theorem C8_counterexample :
    line_circle_intersection (PyVal.str ("x")) (PyVal.num 1) (PyVal.num 0) (PyVal.num 0)
        (PyVal.num 0) (PyVal.num 5) =
      line_circle_intersection (PyVal.num 0) (PyVal.num 1) (PyVal.num 0) (PyVal.num 0)
        (PyVal.num 0) (PyVal.num 5) ∧
    (line_circle_intersection (PyVal.str ("x")) (PyVal.num 1) (PyVal.num 0) (PyVal.num 0)
        (PyVal.num 0) (PyVal.num 5)).status = okS := by
  have hs1 : sqrtQ ((0 : ℚ) ^ 2 + 1 ^ 2) = 1 := by
    rw [show ((0 : ℚ) ^ 2 + 1 ^ 2) = 1 * 1 by norm_num, sqrtQ, Rat.sqrt_eq]
    norm_num
  constructor
  · rfl
  · have hx : _safe_float (PyVal.str ("x")) = 0 := rfl
    unfold line_circle_intersection pyEntry lineCircleBody
    rw [hx]
    dsimp only [_safe_float]
    rw [hs1]
    norm_num [tol9]

/-- C8 (amended): in the geometry entry points, a malformed or missing
scalar parameter (a string Python float conversion rejects, the empty
string, or None) is silently coerced to 0.0 by `_safe_float`, and the
call proceeds exactly as if 0 had been passed: it returns the very
envelope of the zero-default call — an "ok" answer computed from the
default values when that computation succeeds (e.g. coefficient a = "x"
with b = 1), or the downstream error envelope the zero defaults cause
(e.g. a = "x" and b = "y" lead to the division-by-zero error) — and never
a distinct malformed-parameter error. -/
theorem C8_malformed_scalar_defaults_to_zero :
    (∀ s : String, pyFloat? s = none → _safe_float (PyVal.str s) = 0) ∧
    _safe_float PyVal.nil = 0 ∧
    (∀ av bv cv hv kv rv : PyVal,
      line_circle_intersection av bv cv hv kv rv =
        line_circle_intersection (PyVal.num (_safe_float av)) (PyVal.num (_safe_float bv))
          (PyVal.num (_safe_float cv)) (PyVal.num (_safe_float hv))
          (PyVal.num (_safe_float kv)) (PyVal.num (_safe_float rv))) ∧
    (line_circle_intersection (PyVal.str ("x")) (PyVal.num 1) (PyVal.num 0) (PyVal.num 0)
        (PyVal.num 0) (PyVal.num 5)).status = okS ∧
    line_circle_intersection (PyVal.str ("x")) (PyVal.str ("y")) (PyVal.num 0) (PyVal.num 0)
        (PyVal.num 0) (PyVal.num 5) =
      create_error_result opLineCircle msgZeroDiv := by
  refine ⟨?_, rfl, ?_, ?_, ?_⟩
  · intro s h
    by_cases hs : s = "" <;> simp [_safe_float, hs, h]
  · intro av bv cv hv kv rv
    rfl
  · have hs1 : sqrtQ ((0 : ℚ) ^ 2 + 1 ^ 2) = 1 := by
      rw [show ((0 : ℚ) ^ 2 + 1 ^ 2) = 1 * 1 by norm_num, sqrtQ, Rat.sqrt_eq]
      norm_num
    have hx : _safe_float (PyVal.str ("x")) = 0 := rfl
    unfold line_circle_intersection pyEntry lineCircleBody
    rw [hx]
    dsimp only [_safe_float]
    rw [hs1]
    norm_num [tol9]
  · have hs0 : sqrtQ ((0 : ℚ) ^ 2 + 0 ^ 2) = 0 := by
      rw [show ((0 : ℚ) ^ 2 + 0 ^ 2) = 0 by norm_num]
      exact sqrtQ_zero
    have hx : _safe_float (PyVal.str ("x")) = 0 := rfl
    have hy : _safe_float (PyVal.str ("y")) = 0 := rfl
    unfold line_circle_intersection pyEntry lineCircleBody
    rw [hx, hy]
    dsimp only [_safe_float]
    rw [hs0]
    norm_num [tol9]

/-- C8 witness: the malformed coefficient "x" is coerced to zero, the
malformed-a call returns the ok envelope of the zero default, and the
malformed-a-and-b call returns the downstream zero-division error
envelope. -/
theorem C8_malformed_scalar_defaults_to_zero_witness :
    _safe_float (PyVal.str ("x")) = 0 ∧
    (line_circle_intersection (PyVal.str ("x")) (PyVal.num 1) (PyVal.num 0) (PyVal.num 0)
        (PyVal.num 0) (PyVal.num 5)).status = okS ∧
    line_circle_intersection (PyVal.str ("x")) (PyVal.str ("y")) (PyVal.num 0) (PyVal.num 0)
        (PyVal.num 0) (PyVal.num 5) =
      create_error_result opLineCircle msgZeroDiv :=
  ⟨C8_malformed_scalar_defaults_to_zero.1 ("x") (by rfl),
    C8_malformed_scalar_defaults_to_zero.2.2.2.1,
    C8_malformed_scalar_defaults_to_zero.2.2.2.2⟩

/-- C9: `compute_limit` maps every direction string other than exactly "+"
or "-" to the two-sided sympy flag "+-", so the whole result equals the
result for the default two-sided direction string (`dirBothSlash`) except
for the raw direction string echoed unchanged in the ok payload; in
particular an unrecognized direction never by itself produces an error
envelope. -/
theorem C9_limit_direction_default (e : LExpr) (point : ℚ) (direction : String)
    (h1 : direction ≠ dirPlus) (h2 : direction ≠ dirMinus) :
    dirSymOf direction = dirBoth ∧
    compute_limit e point direction = setDir (compute_limit e point dirBothSlash) direction ∧
    ((compute_limit e point direction).status = okS →
      payloadVal (compute_limit e point direction) kDirection = some (Val.vs direction)) := by
  have hd : dirSymOf direction = dirBoth := by
    simp [dirSymOf, h1, h2]
  have hds : dirSymOf dirBothSlash = dirBoth := rfl
  refine ⟨hd, ?_, ?_⟩
  · unfold compute_limit
    dsimp only
    rw [hd, hds]
    cases hl : limEval e point dirBoth with
    | ok v =>
      simp [setDir, kExpression, kPoint, kDirection, kResult]
    | error m =>
      simp [setDir, create_error_result, errKey, kDirection]
  · intro hok
    unfold compute_limit at hok ⊢
    dsimp only at hok ⊢
    rw [hd] at hok ⊢
    cases hl : limEval e point dirBoth with
    | ok v =>
      simp [payloadVal, List.find?, kExpression, kPoint, kDirection]
    | error m =>
      rw [hl] at hok
      simp [create_error_result, errS, okS] at hok

/-- C9 witness: the unrecognized direction "up" at the polynomial x + 3 and
point 2 behaves exactly like the two-sided default and is echoed in the
payload. -/
theorem C9_limit_direction_default_witness :
    dirSymOf ("up") = dirBoth ∧
    compute_limit (LExpr.poly [3, 1]) 2 ("up") =
      setDir (compute_limit (LExpr.poly [3, 1]) 2 dirBothSlash) ("up") ∧
    payloadVal (compute_limit (LExpr.poly [3, 1]) 2 ("up")) kDirection =
      some (Val.vs ("up")) :=
  have h := C9_limit_direction_default (LExpr.poly [3, 1]) 2 ("up") (by decide) (by decide)
  ⟨h.1, h.2.1, h.2.2 rfl⟩

end FV
